import Mathlib

/-!
Shallow embedding of the Tpedia terminal client (src/main.rs, src/wikimedia_types.rs).

The embedding follows the source:
* `Search` mirrors `wikimedia_types::Search`.
* `AppState` collects the mutable locals of `main`
  (`search_mode`, `active_menu_item`, `search_string`,
  `search_result_list_state.selected()`, `current_search_results`,
  `is_selected`, `scroll`, `current_content`).
* `update` is the event-handling part of the main loop (main.rs lines 208-299),
  with the network collaborator `search` abstracted as a function argument
  returning the hit list (`res.query.search`) of a successful call.
* `get_selected_search`, `render_page_content` and `renderReadingStep` mirror
  the render path; an `expect`/`unwrap` panic is modelled as `none`.
* The text-cleaning portion of `fetch_html` (the two `Regex::replace_all`
  calls and the `## Contents` splice) is embedded over `List Char` with an
  executable preference-order (leftmost-first, greedy) regex matcher.

Machine integers: `usize`/`u16` arithmetic is `Nat` with explicit wrapping
(`% 2^64`, `% 2^16`) where the source could overflow in release profile.
-/

namespace Tpedia

/-- `wikimedia_types::Search`: one ranked search hit. Integer fields are `i64`. -/
structure Search where
  ns : Int
  title : String
  pageid : Int
  size : Int
  wordcount : Int
  snippet : String
  timestamp : String
deriving DecidableEq

/-- `enum MenuItem { Home, Results }`. -/
inductive MenuItem where
  | Home
  | Results
deriving DecidableEq

/-- `impl From<MenuItem> for usize`. -/
def MenuItem.toUsize : MenuItem → Nat
  | .Home => 0
  | .Results => 1

/-- `impl PartialEq for MenuItem`: equality via the `usize` coercion. -/
def MenuItem.eqUsize (a b : MenuItem) : Bool :=
  a.toUsize == b.toUsize

/-- The `KeyCode`s the program distinguishes; `Other` stands for every key
hitting a `_ => {}` arm. -/
inductive KeyCode where
  | Char (c : Char)
  | Backspace
  | Enter
  | Esc
  | Down
  | Up
  | Other
deriving DecidableEq

/-- `enum Event<I> { Input(I), Tick }`; only `event.code` of the key event is read. -/
inductive Event where
  | Input (code : KeyCode)
  | Tick
deriving DecidableEq

/-- The mutable locals of `main` that the event handlers read or write. -/
structure AppState where
  search_mode : Bool
  active_menu_item : MenuItem
  search_string : String
  /-- `search_result_list_state.selected()` -/
  selected : Option Nat
  current_search_results : List Search
  is_selected : Bool
  /-- `scroll: u16` -/
  scroll : Nat
  current_content : Option String
deriving DecidableEq

/-- State at the top of the main loop: `search_mode = false`,
`active_menu_item = MenuItem::Home`, empty query, `select(Some(0))`,
no results, `is_selected = false`, `scroll = 0`, `current_content = None`. -/
def initialState : AppState :=
  ⟨false, .Home, "", some 0, [], false, 0, none⟩

/-- `2^64`: the modulus of `usize` arithmetic (64-bit target). -/
def USIZE : Nat := 2 ^ 64

/-- `2^16`: the modulus of `u16` arithmetic. -/
def U16 : Nat := 2 ^ 16

/-- `n - 1` on `usize` with release-profile (wrapping) semantics:
`0 - 1` wraps to `2^64 - 1`. -/
def usizeSub1 (n : Nat) : Nat :=
  (n + (USIZE - 1)) % USIZE

/-- `String::pop`: drop the last character (no-op on the empty string). -/
def stringPop (s : String) : String :=
  ⟨s.toList.dropLast⟩

/-- Outcome of one loop iteration: continue with the new state, or `break`
out of the loop (the `KeyCode::Char('q')` arm). -/
inductive Step where
  | Continue (st : AppState)
  | Quit (st : AppState)
deriving DecidableEq

/-- The `if search_mode { match event.code { ... } }` block
(main.rs lines 210-233). -/
def searchingHandler (searchFn : String → List Search) (st : AppState)
    (code : KeyCode) : AppState :=
  match code with
  | .Char c => { st with search_string := st.search_string.push c }
  | .Backspace => { st with search_string := stringPop st.search_string }
  | .Enter =>
    let hits := searchFn st.search_string
    { st with
        current_search_results := hits
        search_mode := false
        active_menu_item := .Results
        is_selected := false
        selected := some 0 }
  | .Esc => { st with search_mode := false }
  | _ => st

/-- The `else if is_selected { ... }` block (main.rs lines 234-249). -/
def readingHandler (st : AppState) (code : KeyCode) : AppState :=
  match code with
  | .Esc => { st with is_selected := false }
  | .Down => { st with scroll := (st.scroll + 1) % U16 }
  | .Up => { st with scroll := if st.scroll > 0 then st.scroll - 1 else st.scroll }
  | _ => st

/-- The `else if active_menu_item == MenuItem::Results { ... }` block
(main.rs lines 250-280). -/
def resultsNavHandler (st : AppState) (code : KeyCode) : AppState :=
  match code with
  | .Enter => { st with is_selected := true, current_content := none, scroll := 0 }
  | .Down =>
    match st.selected with
    | some selected =>
      let amount := st.current_search_results.length
      if selected ≥ usizeSub1 amount ∧ amount ≠ 0 then
        { st with selected := some 0 }
      else if amount ≠ 0 then
        { st with selected := some ((selected + 1) % USIZE) }
      else st
    | none => st
  | .Up =>
    match st.selected with
    | some selected =>
      let amount := st.current_search_results.length
      if selected > 0 ∧ amount ≠ 0 then
        { st with selected := some (selected - 1) }
      else if amount ≠ 0 then
        { st with selected := some (usizeSub1 amount) }
      else st
    | none => st
  | _ => st

/-- The mode dispatch: the `if search_mode / else if is_selected /
else if active_menu_item == MenuItem::Results` chain. -/
def modeDispatch (searchFn : String → List Search) (st : AppState)
    (code : KeyCode) : AppState :=
  if st.search_mode then searchingHandler searchFn st code
  else if st.is_selected then readingHandler st code
  else if st.active_menu_item.eqUsize .Results then resultsNavHandler st code
  else st

/-- The trailing `if !search_mode { match event.code { ... } }` block
(main.rs lines 282-296); it reads `search_mode` as updated by the mode
dispatch, exactly as in the source. `Quit` is the `Char('q')` arm's `break`. -/
def globalHandler (st1 : AppState) (code : KeyCode) : Step :=
  if st1.search_mode then
    .Continue st1
  else
    match code with
    | .Char c =>
      if c = 'q' then .Quit st1
      else if c = 'h' then .Continue { st1 with active_menu_item := .Home }
      else if c = 'r' then .Continue { st1 with active_menu_item := .Results }
      else if c = 's' then .Continue { st1 with search_mode := true }
      else .Continue st1
    | _ => .Continue st1

/-- The event-handling half of the main loop (main.rs lines 208-299).
`searchFn` abstracts a successful `search(query)` call, returning
`res.query.search`. -/
def update (searchFn : String → List Search) (st : AppState) (ev : Event) : Step :=
  match ev with
  | .Tick => .Continue st
  | .Input code => globalHandler (modeDispatch searchFn st code) code

/-- Project the state out of a step outcome. -/
def contState : Step → AppState
  | .Continue st => st
  | .Quit st => st

/-- Run a list of pump events from the initial state. -/
def runEvents (searchFn : String → List Search) (evs : List Event) : AppState :=
  evs.foldl (fun st ev => contState (update searchFn st ev)) initialState

/-- A Normal-mode state on the Results tab with selection `some i`. -/
def navState (q : String) (hits : List Search) (i : Nat) (scr : Nat)
    (cont : Option String) : AppState :=
  ⟨false, .Results, q, some i, hits, false, scr, cont⟩

/-- One `Down` key press, as a state transformer. -/
def downStep (searchFn : String → List Search) (st : AppState) : AppState :=
  contState (update searchFn st (.Input .Down))

/-- One `Up` key press, as a state transformer. -/
def upStep (searchFn : String → List Search) (st : AppState) : AppState :=
  contState (update searchFn st (.Input .Up))

/-- A search collaborator returning no hits. -/
def emptySearchFn : String → List Search := fun _ => []

/-! ## Render path (main.rs lines 179-201, 384-395, 431-454)

A `.expect(...)`/`.unwrap()` panic is modelled as `none`. -/

/-- `get_selected_search`: look up the highlighted hit. `none` models the
panic of `expect("there is always a selected result")` (absent selection)
or of `expect("no search results")` (out-of-range index). -/
def get_selected_search (search_results : List Search) (selected : Option Nat) :
    Option Search :=
  match selected with
  | none => none
  | some i => search_results.get? i

/-- `usize::try_from` on an `i64` (`selected_search.pageid.try_into()`):
fails on negative values. -/
def tryIntoUsize (n : Int) : Option Nat :=
  if n < 0 then none else some n.toNat

/-- `width - 10` on `u16` with release-profile (wrapping) semantics. -/
def u16Sub (a b : Nat) : Nat :=
  (a + (U16 - b % U16)) % U16

/-- `render_page_content`, projected to its data content: the text that will
be cached (`res.1`) and the list of `(pageid, width)` arguments of the
`fetch_html` calls it makes. `fetchArticle` abstracts a successful
`fetch_html`; `none` models the `try_into().unwrap()` panic. -/
def render_page_content (fetchArticle : Nat → Nat → String) (selected_search : Search)
    (content : Option String) (width : Nat) : Option (String × List (Nat × Nat)) :=
  match content with
  | none =>
    match tryIntoUsize selected_search.pageid with
    | none => none
    | some pid => some (fetchArticle pid (u16Sub width 10), [(pid, u16Sub width 10)])
  | some c => some (c, [])

/-- One pass of the draw closure's Results-tab detail panel
(main.rs lines 181-201): when the Results tab is active and `is_selected`
holds, look up the highlighted hit, render the page content and store the
returned text in `current_content`. Returns the updated state and the list
of `fetch_html` calls made; `none` models a panic inside the draw call. -/
def renderReadingStep (fetchArticle : Nat → Nat → String) (st : AppState)
    (width : Nat) : Option (AppState × List (Nat × Nat)) :=
  match st.active_menu_item with
  | .Home => some (st, [])
  | .Results =>
    if st.is_selected then
      match get_selected_search st.current_search_results st.selected with
      | none => none
      | some selected_item =>
        match render_page_content fetchArticle selected_item st.current_content width with
        | none => none
        | some (text, calls) => some ({ st with current_content := some text }, calls)
    else some (st, [])

/-! ## Text-cleaning pipeline of `fetch_html` (main.rs lines 321-337)

The two `Regex::replace_all` calls and the `## Contents` splice, embedded
over `List Char`. The matcher implements the regex crate's leftmost-first
(preference order) semantics: alternation prefers the left branch,
repetition is greedy. Character classes are modelled on their ASCII
portion (`\d`, `\s`, `\w`), which the inputs of interest exercise. -/

/-- Regex abstract syntax: literal char, character class, sequence,
alternation (left-preferring), greedy Kleene star, empty. -/
inductive Rx where
  | chr (c : Char)
  | cls (p : Char → Bool)
  | seq (a b : Rx)
  | alt (a b : Rx)
  | star (r : Rx)
  | eps

/-- `r+` as `r r*`. -/
def Rx.plus (r : Rx) : Rx := .seq r (.star r)

/-- `r?` (greedy: prefers matching). -/
def Rx.opt (r : Rx) : Rx := .alt r .eps

/-- A literal string as a sequence of literal chars. -/
def Rx.lit (s : String) : Rx :=
  s.toList.foldr (fun c r => .seq (.chr c) r) .eps

/-- `\s` (ASCII portion of Unicode whitespace). -/
def isSpaceCh (c : Char) : Bool :=
  c = ' ' ∨ c = '\t' ∨ c = '\n' ∨ c = '\x0b' ∨ c = '\x0c' ∨ c = '\r'

/-- `\w` (ASCII portion). -/
def isWordCh (c : Char) : Bool :=
  c.isAlphanum ∨ c = '_'

/-- `.`: any character except newline. -/
def Rx.dot : Rx := .cls (fun c => c ≠ '\n')

/-- All suffixes of the input remaining after a match of `r` at its front,
in preference order (leftmost-first semantics: left alternative first,
greedy repetition longest-first). `fuel` bounds the recursion depth; every
use supplies enough fuel, since each star iteration must consume input. -/
def matchEnds : Nat → Rx → List Char → List (List Char)
  | 0, _, _ => []
  | fuel + 1, r, s =>
    match r with
    | .eps => [s]
    | .chr c =>
      match s with
      | [] => []
      | a :: t => if a = c then [t] else []
    | .cls p =>
      match s with
      | [] => []
      | a :: t => if p a then [t] else []
    | .seq a b => (matchEnds fuel a s).flatMap (fun s2 => matchEnds fuel b s2)
    | .alt a b => matchEnds fuel a s ++ matchEnds fuel b s
    | .star body =>
      ((matchEnds fuel body s).flatMap
        (fun s2 => if s2.length < s.length then matchEnds fuel (.star body) s2 else []))
        ++ [s]

/-- Recursion-depth budget amply sufficient for the two source regexes. -/
def fuelFor (s : List Char) : Nat := 64 * (s.length + 2)

/-- The preferred (leftmost-first) match of `r` at the front of `s`:
the remaining suffix, or `none` if `r` does not match at the front. -/
def matchHere (r : Rx) (s : List Char) : Option (List Char) :=
  (matchEnds (fuelFor s) r s).head?

/-- `Regex::replace_all` with replacement `""`: scan left to right, delete
each leftmost match and continue after it. `fuel` is at least the input
length, which suffices because every step consumes at least one char. -/
def scanReplace (r : Rx) : Nat → List Char → List Char
  | 0, s => s
  | _ + 1, [] => []
  | fuel + 1, a :: t =>
    match matchHere r (a :: t) with
    | some rest =>
      if rest.length < t.length + 1 then scanReplace r fuel rest
      else a :: scanReplace r fuel t
    | none => a :: scanReplace r fuel t

/-- `re.replace_all(&text, "")` as a function of the text. -/
def replaceAll (r : Rx) (s : List Char) : List Char :=
  scanReplace r (s.length + 1) s

/-- `let re = Regex::new(r"(\[)+\d*(\])|(edit)+|\[|\]|(https:)?(/.*/.*)+[\s\S]|#+\s\W")`. -/
def re : Rx :=
  .alt (.seq (Rx.plus (.chr '[')) (.seq (.star (.cls Char.isDigit)) (.chr ']')))
    (.alt (Rx.plus (Rx.lit "edit"))
      (.alt (.chr '[')
        (.alt (.chr ']')
          (.alt
            (.seq (Rx.opt (Rx.lit "https:"))
              (.seq
                (Rx.plus (.seq (.chr '/')
                  (.seq (.star Rx.dot) (.seq (.chr '/') (.star Rx.dot)))))
                (.cls (fun _ => true))))
            (.seq (Rx.plus (.chr '#'))
              (.seq (.cls isSpaceCh) (.cls (fun c => ¬ isWordCh c))))))))

/-- `let a = Regex::new(r"\d\s")`. -/
def reA : Rx := .seq (.cls Char.isDigit) (.cls isSpaceCh)

/-- `str::find(pat)`: index of the first occurrence of `pat`, in characters.
The source works with byte indices; the two needles are ASCII, so character
positions and the byte positions the source computes select the same
prefixes and suffixes. -/
def findSub (pat : List Char) : List Char → Option Nat
  | [] => if pat.isPrefixOf ([] : List Char) then some 0 else none
  | c :: t =>
    if pat.isPrefixOf (c :: t) then some 0
    else (findSub pat t).map (· + 1)

/-- Substring occurrence test. -/
def containsSub (pat text : List Char) : Bool :=
  (findSub pat text).isSome

/-- The table-of-contents splice at the end of `fetch_html`
(main.rs lines 329-337): find `"## Contents"`; if present, find the next
`"## "` after it (the `.unwrap()` panic on absence is `none`) and keep
only the text before the marker plus the text from that next heading on. -/
def removeContents (text : List Char) : Option (List Char) :=
  match findSub ("## Contents".toList) text with
  | none => some text
  | some i =>
    match findSub ("## ".toList) (text.drop (i + 11)) with
    | none => none
    | some end_index => some (text.take i ++ text.drop (end_index + 11 + i))

/-- The pure text-cleaning portion of `fetch_html`: the citation/bracket/URL
regex pass, the digit-plus-whitespace pass, then the Contents splice. -/
def stripMarkup (text : List Char) : Option (List Char) :=
  removeContents (replaceAll reA (replaceAll re text))

/-! ## Sample data for witnesses and counterexamples -/

/-- A concrete hit with `pageid = 1`. -/
def hitA : Search := ⟨0, "A", 1, 10, 5, "snipA", "2021-01-01"⟩

/-- A concrete hit with `pageid = 2`. -/
def hitB : Search := ⟨0, "B", 2, 20, 6, "snipB", "2021-01-02"⟩

/-- A search collaborator returning one hit. -/
def oneHitSearchFn : String → List Search := fun _ => [hitA]

/-- A fetch collaborator returning a fixed body. -/
def fetchBody : Nat → Nat → String := fun _ _ => "body"

/-- A concrete Reading-mode state over one hit. -/
def readingState0 : AppState :=
  ⟨false, .Results, "", some 0, [hitA], true, 0, none⟩

/-- A concrete Reading-mode state with a cached body and a scroll offset. -/
def readingState2 : AppState :=
  ⟨false, .Results, "q", some 0, [hitA], true, 3, some "b"⟩

/-! ## Helper lemmas -/

theorem usizeSub1_eq {n : Nat} (h1 : 1 ≤ n) (h2 : n < USIZE) :
    usizeSub1 n = n - 1 := by
  unfold usizeSub1 USIZE at *
  omega

theorem navState_dispatch (f : String → List Search) (q : String)
    (hits : List Search) (i scr : Nat) (cont : Option String) (code : KeyCode) :
    modeDispatch f (navState q hits i scr cont) code
      = resultsNavHandler (navState q hits i scr cont) code := by
  simp [modeDispatch, navState, MenuItem.eqUsize, MenuItem.toUsize]

theorem globalHandler_arrow (st : AppState) (h : st.search_mode = false) :
    globalHandler st .Down = .Continue st ∧ globalHandler st .Up = .Continue st := by
  constructor <;> simp [globalHandler, h]

theorem down_one (f : String → List Search) (q : String) (hits : List Search)
    (i scr : Nat) (cont : Option String) (hn : 0 < hits.length)
    (hi : i < hits.length) (hU : hits.length < USIZE) :
    downStep f (navState q hits i scr cont)
      = navState q hits ((i + 1) % hits.length) scr cont := by
  have hne : hits.length ≠ 0 := by omega
  have hr : resultsNavHandler (navState q hits i scr cont) .Down
      = navState q hits ((i + 1) % hits.length) scr cont := by
    unfold resultsNavHandler navState
    dsimp only
    rw [usizeSub1_eq hn hU]
    by_cases hlast : hits.length - 1 ≤ i
    · rw [if_pos ⟨hlast, hne⟩]
      have h2 : (i + 1) % hits.length = 0 := by
        have h1 : i = hits.length - 1 := by omega
        rw [h1, Nat.sub_add_cancel hn, Nat.mod_self]
      rw [h2]
    · rw [if_neg (fun h => hlast h.1), if_pos hne,
        Nat.mod_eq_of_lt (show i + 1 < USIZE by omega),
        Nat.mod_eq_of_lt (show i + 1 < hits.length by omega)]
  show contState (globalHandler (modeDispatch f (navState q hits i scr cont) .Down) .Down) = _
  rw [navState_dispatch, hr, (globalHandler_arrow _ rfl).1]
  rfl

theorem up_one (f : String → List Search) (q : String) (hits : List Search)
    (i scr : Nat) (cont : Option String) (hn : 0 < hits.length)
    (hi : i < hits.length) (hU : hits.length < USIZE) :
    upStep f (navState q hits i scr cont)
      = navState q hits ((i + (hits.length - 1)) % hits.length) scr cont := by
  have hne : hits.length ≠ 0 := by omega
  have hr : resultsNavHandler (navState q hits i scr cont) .Up
      = navState q hits ((i + (hits.length - 1)) % hits.length) scr cont := by
    unfold resultsNavHandler navState
    dsimp only
    rw [usizeSub1_eq hn hU]
    by_cases hz : 0 < i
    · rw [if_pos ⟨hz, hne⟩]
      have h2 : (i + (hits.length - 1)) % hits.length = i - 1 := by
        rw [show i + (hits.length - 1) = (i - 1) + hits.length by omega,
          Nat.add_mod_right, Nat.mod_eq_of_lt (by omega)]
      rw [h2]
    · rw [if_neg (fun h => hz h.1), if_pos hne]
      have h2 : (i + (hits.length - 1)) % hits.length = hits.length - 1 := by
        rw [show i = 0 by omega, Nat.zero_add, Nat.mod_eq_of_lt (by omega)]
      rw [h2]
  show contState (globalHandler (modeDispatch f (navState q hits i scr cont) .Up) .Up) = _
  rw [navState_dispatch, hr, (globalHandler_arrow _ rfl).2]
  rfl

theorem down_iter (f : String → List Search) (q : String) (hits : List Search)
    (i scr : Nat) (cont : Option String) (hn : 0 < hits.length)
    (hi : i < hits.length) (hU : hits.length < USIZE) (k : Nat) :
    (downStep f)^[k] (navState q hits i scr cont)
      = navState q hits ((i + k) % hits.length) scr cont := by
  induction k with
  | zero => simp [Nat.mod_eq_of_lt hi]
  | succ k ih =>
    rw [Function.iterate_succ_apply', ih,
      down_one f q hits ((i + k) % hits.length) scr cont hn
        (Nat.mod_lt _ hn) hU, Nat.mod_add_mod, Nat.add_assoc]

theorem up_iter (f : String → List Search) (q : String) (hits : List Search)
    (i scr : Nat) (cont : Option String) (hn : 0 < hits.length)
    (hi : i < hits.length) (hU : hits.length < USIZE) (k : Nat) :
    (upStep f)^[k] (navState q hits i scr cont)
      = navState q hits ((i + k * (hits.length - 1)) % hits.length) scr cont := by
  induction k with
  | zero => simp [Nat.mod_eq_of_lt hi]
  | succ k ih =>
    rw [Function.iterate_succ_apply', ih,
      up_one f q hits ((i + k * (hits.length - 1)) % hits.length) scr cont hn
        (Nat.mod_lt _ hn) hU, Nat.mod_add_mod, Nat.succ_mul, Nat.add_assoc]

theorem searchingHandler_selected (f : String → List Search) (st : AppState)
    (code : KeyCode) (h : st.selected.isSome = true) :
    ((searchingHandler f st code).selected).isSome = true := by
  cases code <;> simp [searchingHandler, h]

theorem readingHandler_selected (st : AppState) (code : KeyCode)
    (h : st.selected.isSome = true) :
    ((readingHandler st code).selected).isSome = true := by
  cases code <;> simp [readingHandler, h]

theorem resultsNavHandler_selected (st : AppState) (code : KeyCode)
    (h : st.selected.isSome = true) :
    ((resultsNavHandler st code).selected).isSome = true := by
  cases hsel : st.selected with
  | none => rw [hsel] at h; simp at h
  | some j =>
    cases code <;> simp [resultsNavHandler, hsel, h] <;> split_ifs <;> simp [hsel]

theorem modeDispatch_selected (f : String → List Search) (st : AppState)
    (code : KeyCode) (h : st.selected.isSome = true) :
    ((modeDispatch f st code).selected).isSome = true := by
  unfold modeDispatch
  split_ifs
  · exact searchingHandler_selected f st code h
  · exact readingHandler_selected st code h
  · exact resultsNavHandler_selected st code h
  · exact h

theorem globalHandler_selected (st : AppState) (code : KeyCode) :
    ((contState (globalHandler st code)).selected) = st.selected := by
  cases code <;> unfold globalHandler <;> dsimp only <;> split_ifs <;> rfl

theorem update_selected_isSome (f : String → List Search) (st : AppState)
    (ev : Event) (h : st.selected.isSome = true) :
    ((contState (update f st ev)).selected).isSome = true := by
  cases ev with
  | Tick => exact h
  | Input code =>
    show ((contState (globalHandler (modeDispatch f st code) code)).selected).isSome = true
    rw [globalHandler_selected]
    exact modeDispatch_selected f st code h

theorem foldl_selected_isSome (f : String → List Search) (evs : List Event) :
    ∀ st : AppState, st.selected.isSome = true →
      ((evs.foldl (fun st ev => contState (update f st ev)) st).selected).isSome = true := by
  induction evs with
  | nil => intro st h; exact h
  | cons ev rest ih =>
    intro st h
    exact ih _ (update_selected_isSome f st ev h)

theorem scanReplace_no_match (r : Rx) :
    ∀ (fuel : Nat) (s : List Char),
      (∀ n, n < s.length → matchHere r (s.drop n) = none) →
      scanReplace r fuel s = s := by
  intro fuel
  induction fuel with
  | zero => intro s _; rfl
  | succ fuel ih =>
    intro s hs
    cases s with
    | nil => rfl
    | cons a t =>
      have h0 : matchHere r (a :: t) = none := hs 0 (by simp)
      show scanReplace r (fuel + 1) (a :: t) = a :: t
      unfold scanReplace
      rw [h0]
      rw [ih t (fun n hn => hs (n + 1) (by simpa using hn))]

theorem replaceAll_no_match (r : Rx) (s : List Char)
    (h : ∀ n, n < s.length → matchHere r (s.drop n) = none) :
    replaceAll r s = s :=
  scanReplace_no_match r (s.length + 1) s h

/-! ## Claims -/

/-- Claim C1: for every non-empty result list of length `n` and every valid
starting selected index, pressing `Down` exactly `n` times in Normal mode on
the Results tab returns the selection to the starting index, and likewise
pressing `Up` exactly `n` times; `Down` at the last index moves to `0` and
`Up` at index `0` moves to `n - 1`. -/
theorem wraparound_law (f : String → List Search) (q : String)
    (hits : List Search) (i scr : Nat) (cont : Option String)
    (hn : 0 < hits.length) (hi : i < hits.length) (hU : hits.length < USIZE) :
    (downStep f)^[hits.length] (navState q hits i scr cont)
      = navState q hits i scr cont
    ∧ (upStep f)^[hits.length] (navState q hits i scr cont)
      = navState q hits i scr cont
    ∧ downStep f (navState q hits (hits.length - 1) scr cont)
      = navState q hits 0 scr cont
    ∧ upStep f (navState q hits 0 scr cont)
      = navState q hits (hits.length - 1) scr cont := by
  refine ⟨?_, ?_, ?_, ?_⟩
  · rw [down_iter f q hits i scr cont hn hi hU hits.length, Nat.add_mod_right,
      Nat.mod_eq_of_lt hi]
  · rw [up_iter f q hits i scr cont hn hi hU hits.length,
      Nat.mul_comm hits.length (hits.length - 1), Nat.add_mul_mod_self_right,
      Nat.mod_eq_of_lt hi]
  · rw [down_one f q hits (hits.length - 1) scr cont hn (by omega) hU,
      Nat.sub_add_cancel hn, Nat.mod_self]
  · rw [up_one f q hits 0 scr cont hn hn hU, Nat.zero_add,
      Nat.mod_eq_of_lt (by omega)]

/-- Witness for `wraparound_law` at a two-element result list. -/
theorem wraparound_law_witness :
    (downStep emptySearchFn)^[([hitA, hitB] : List Search).length]
        (navState "" [hitA, hitB] 0 0 none)
      = navState "" [hitA, hitB] 0 0 none
    ∧ (upStep emptySearchFn)^[([hitA, hitB] : List Search).length]
        (navState "" [hitA, hitB] 0 0 none)
      = navState "" [hitA, hitB] 0 0 none
    ∧ downStep emptySearchFn
        (navState "" [hitA, hitB] (([hitA, hitB] : List Search).length - 1) 0 none)
      = navState "" [hitA, hitB] 0 0 none
    ∧ upStep emptySearchFn (navState "" [hitA, hitB] 0 0 none)
      = navState "" [hitA, hitB] (([hitA, hitB] : List Search).length - 1) 0 none :=
  wraparound_law emptySearchFn "" [hitA, hitB] 0 0 none (by decide) (by decide)
    (by decide)

/-- Claim C2, counterexample: the initial state has empty results but
`selected = some 0`, and a search completing with an empty hit list also
leaves `selected = some 0`, so "`selectedIndex` is `None` iff `results` is
empty" fails already at startup and after an empty search. -/
theorem selection_none_iff_empty_cex :
    ¬ (initialState.selected = none ↔ initialState.current_search_results = [])
    ∧ (runEvents emptySearchFn [.Input (.Char 's'), .Input .Enter]).current_search_results
        = []
    ∧ (runEvents emptySearchFn [.Input (.Char 's'), .Input .Enter]).selected = some 0 := by
  decide

/-- Claim C2 (amended): after every sequence of transitions from the initial
state the selected index is `some _` — never `None` — regardless of whether
the result list is empty; in particular the initial state and a search with
an empty hit list leave it `some 0`. -/
theorem selection_always_some (f : String → List Search) (evs : List Event) :
    ((runEvents f evs).selected).isSome = true :=
  foldl_selected_isSome f evs initialState rfl

/-- Claim C3, counterexample: with empty results, `Down`/`Up` on the Results
tab leave the selection at `some 0`, not `None` as the claim states. -/
theorem empty_results_nav_cex :
    (runEvents emptySearchFn [.Input (.Char 'r'), .Input .Down]).selected = some 0
    ∧ (runEvents emptySearchFn [.Input (.Char 'r'), .Input .Down]).current_search_results
        = []
    ∧ (runEvents emptySearchFn [.Input (.Char 'r'), .Input .Up]).selected = some 0 := by
  decide

/-- Claim C3 (amended): when the result list is empty, `Down` or `Up` in
Normal mode on the Results tab returns `Continue` of the unchanged state —
the selection keeps its current `some` value, nothing else changes, and no
panic occurs (under release-profile wrapping arithmetic). -/
theorem empty_results_nav_noop (f : String → List Search) (q : String)
    (i scr : Nat) (cont : Option String) :
    update f (navState q [] i scr cont) (.Input .Down)
      = .Continue (navState q [] i scr cont)
    ∧ update f (navState q [] i scr cont) (.Input .Up)
      = .Continue (navState q [] i scr cont) := by
  constructor
  · show globalHandler (modeDispatch f (navState q [] i scr cont) .Down) .Down = _
    rw [navState_dispatch]
    unfold resultsNavHandler navState
    dsimp only
    rw [if_neg (fun h => h.2 rfl), if_neg (fun h => h rfl)]
    exact (globalHandler_arrow _ rfl).1
  · show globalHandler (modeDispatch f (navState q [] i scr cont) .Up) .Up = _
    rw [navState_dispatch]
    unfold resultsNavHandler navState
    dsimp only
    rw [if_neg (fun h => h.2 rfl), if_neg (fun h => h rfl)]
    exact (globalHandler_arrow _ rfl).2

/-- Claim C4, counterexample: completing a search whose hit list is empty
sets `selected` to `some 0`, not to `None` as the claim states. -/
theorem search_empty_hits_cex :
    (runEvents emptySearchFn [.Input (.Char 's'), .Input .Enter]).search_mode = false
    ∧ (runEvents emptySearchFn [.Input (.Char 's'), .Input .Enter]).active_menu_item
        = .Results
    ∧ (runEvents emptySearchFn [.Input (.Char 's'), .Input .Enter]).current_search_results
        = []
    ∧ ¬ ((runEvents emptySearchFn [.Input (.Char 's'), .Input .Enter]).selected = none)
    := by
  decide

/-- Claim C4 (amended): `Enter` in Searching mode stores the returned hits,
sets the selection to `some 0` unconditionally (also when the hit list is
empty), leaves Searching mode (back to Normal: `search_mode = false`,
`is_selected = false`) and activates the Results tab. -/
theorem search_enter_result (f : String → List Search) (tab : MenuItem)
    (q : String) (sel : Option Nat) (hits : List Search) (isel : Bool)
    (scr : Nat) (cont : Option String) :
    update f ⟨true, tab, q, sel, hits, isel, scr, cont⟩ (.Input .Enter)
      = .Continue ⟨false, .Results, q, some 0, f q, false, scr, cont⟩ := by
  simp [update, modeDispatch, searchingHandler, globalHandler]

/-- Claim C5, counterexample: in a reachable Reading state with cached body
`"body"` and scroll offset `2`, pressing `Escape` only clears `is_selected`:
the cached body and the scroll offset remain in the state. -/
theorem escape_reading_cex :
    renderReadingStep fetchBody
        (runEvents oneHitSearchFn
          [.Input (.Char 's'), .Input .Enter, .Input .Enter, .Input .Down,
            .Input .Down]) 80
      = some (⟨false, .Results, "", some 0, [hitA], true, 2, some "body"⟩, [(1, 70)])
    ∧ contState (update oneHitSearchFn
          ⟨false, .Results, "", some 0, [hitA], true, 2, some "body"⟩ (.Input .Esc))
      = ⟨false, .Results, "", some 0, [hitA], false, 2, some "body"⟩ := by
  decide

/-- Claim C5 (amended): `Escape` while Reading sets the mode back to Normal
(`is_selected := false`) and changes nothing else — the cached body and the
scroll offset stay in the state; they are reset only when an article is next
opened with `Enter` on the Results tab (`current_content := none`,
`scroll := 0`). -/
theorem escape_reading_keeps_cache (f : String → List Search) (tab : MenuItem)
    (q : String) (sel : Option Nat) (hits : List Search) (scr : Nat)
    (cont : Option String) :
    update f ⟨false, tab, q, sel, hits, true, scr, cont⟩ (.Input .Esc)
      = .Continue ⟨false, tab, q, sel, hits, false, scr, cont⟩
    ∧ update f ⟨false, .Results, q, sel, hits, false, scr, cont⟩ (.Input .Enter)
      = .Continue ⟨false, .Results, q, sel, hits, true, 0, none⟩ := by
  constructor
  · simp [update, modeDispatch, readingHandler, globalHandler]
  · simp [update, modeDispatch, resultsNavHandler, globalHandler,
      MenuItem.eqUsize, MenuItem.toUsize]

/-- Claim C6: when the Results tab is active, the state is Reading and the
cached body is `None`, one render pass performs exactly one `fetch_html`
call for the selected hit's page id and stores the returned text; a second
render pass with the cached body performs zero further calls and leaves the
body unchanged. -/
theorem body_fetched_once (fetch : Nat → Nat → String) (st : AppState)
    (width : Nat) (item : Search) (pid : Nat)
    (htab : st.active_menu_item = .Results) (hsel : st.is_selected = true)
    (hitem : get_selected_search st.current_search_results st.selected = some item)
    (hcont : st.current_content = none)
    (hpid : tryIntoUsize item.pageid = some pid) :
    renderReadingStep fetch st width
      = some ({ st with current_content := some (fetch pid (u16Sub width 10)) },
          [(pid, u16Sub width 10)])
    ∧ renderReadingStep fetch
        { st with current_content := some (fetch pid (u16Sub width 10)) } width
      = some ({ st with current_content := some (fetch pid (u16Sub width 10)) }, []) := by
  obtain ⟨sm, tab, q, sel, hits, isel, scr, cont⟩ := st
  dsimp only at htab hsel hcont hitem ⊢
  subst htab
  subst hsel
  subst hcont
  constructor
  · unfold renderReadingStep
    dsimp only
    rw [hitem]
    unfold render_page_content
    dsimp only
    rw [hpid]
    rfl
  · unfold renderReadingStep
    dsimp only
    rw [hitem]
    rfl

/-- Witness for `body_fetched_once` at a concrete Reading state over `hitA`. -/
theorem body_fetched_once_witness :
    renderReadingStep fetchBody readingState0 80
      = some ({ readingState0 with
          current_content := some (fetchBody 1 (u16Sub 80 10)) },
          [(1, u16Sub 80 10)])
    ∧ renderReadingStep fetchBody
        { readingState0 with current_content := some (fetchBody 1 (u16Sub 80 10)) } 80
      = some ({ readingState0 with
          current_content := some (fetchBody 1 (u16Sub 80 10)) }, []) :=
  body_fetched_once fetchBody readingState0 80 hitA 1 (by decide) (by decide)
    (by decide) (by decide) (by decide)

/-- Claim C7, counterexample: in
`"## Contentsxx## Contents!"` the marker is followed later by a top-level
heading marker (and `"xx"` contains no heading), yet the spliced output
`"## Contents!"` still contains the full marker text, because the next
heading is itself titled `Contents`. -/
theorem contents_removal_cex :
    removeContents ("## Contentsxx## Contents!".toList)
      = some ("## Contents!".toList)
    ∧ containsSub ("## Contents".toList) ("## Contents!".toList) = true
    ∧ containsSub ("## ".toList) ("xx".toList) = false := by
  decide

/-- Claim C7 (amended): when the text splits as
`p ++ "## Contents" ++ m ++ "## " ++ s` with the marker first found at
position `p.length` and the next `"## "` first found right after `m`, the
splice output is exactly `p ++ "## " ++ s`: the marker occurrence and the
text strictly between it and the next top-level heading are deleted, and
the next heading and everything after it are preserved (so the output can
contain the marker text only where it occurs in the preserved parts). -/
theorem contents_removal_splice (p m s : List Char)
    (h1 : findSub ("## Contents".toList)
        (p ++ ("## Contents".toList ++ (m ++ ("## ".toList ++ s)))) = some p.length)
    (h2 : findSub ("## ".toList) (m ++ ("## ".toList ++ s)) = some m.length) :
    removeContents (p ++ ("## Contents".toList ++ (m ++ ("## ".toList ++ s))))
      = some (p ++ ("## ".toList ++ s)) := by
  have hM : ("## Contents".toList).length = 11 := by decide
  unfold removeContents
  rw [h1]
  dsimp only
  have hdrop1 : (p ++ ("## Contents".toList ++ (m ++ ("## ".toList ++ s)))).drop
      (p.length + 11) = m ++ ("## ".toList ++ s) := by
    rw [← List.append_assoc]
    exact List.drop_left' (by simp [hM])
  rw [hdrop1, h2]
  dsimp only
  have htake : (p ++ ("## Contents".toList ++ (m ++ ("## ".toList ++ s)))).take
      p.length = p := List.take_left' rfl
  have hdrop2 : (p ++ ("## Contents".toList ++ (m ++ ("## ".toList ++ s)))).drop
      (m.length + 11 + p.length) = "## ".toList ++ s := by
    rw [← List.append_assoc, ← List.append_assoc]
    exact List.drop_left' (by simp [hM]; omega)
  rw [htake, hdrop2]

/-- Witness for `contents_removal_splice` on `"x## ContentsTOC## End"`. -/
theorem contents_removal_splice_witness :
    (findSub ("## Contents".toList)
        ("x".toList ++ ("## Contents".toList ++ ("TOC".toList ++ ("## ".toList
          ++ "End".toList)))) = some ("x".toList).length
      ∧ findSub ("## ".toList) ("TOC".toList ++ ("## ".toList ++ "End".toList))
          = some ("TOC".toList).length)
    ∧ removeContents ("x".toList ++ ("## Contents".toList ++ ("TOC".toList
        ++ ("## ".toList ++ "End".toList))))
      = some ("x".toList ++ ("## ".toList ++ "End".toList)) :=
  ⟨⟨by decide, by decide⟩,
    contents_removal_splice "x".toList "TOC".toList "End".toList (by decide)
      (by decide)⟩

/-- Claim C8, counterexample: `"11  "` is itself an output of the stripping
steps (on input `"112   "`), yet running the steps on it gives `"1 "` and
running them a second time gives `""`: the digit-plus-whitespace pass does
not rescan its own output, so twice differs from once on an
already-stripped input. -/
theorem strip_idempotence_cex :
    stripMarkup ("112   ".toList) = some ("11  ".toList)
    ∧ stripMarkup ("11  ".toList) = some ("1 ".toList)
    ∧ stripMarkup ("1 ".toList) = some []
    ∧ (stripMarkup ("11  ".toList)).bind stripMarkup
        ≠ stripMarkup ("11  ".toList) := by
  decide

/-- Claim C8 (amended): the stripping steps fix every input in which no
markup remains for them — no match of the citation/bracket/URL regex at any
position, no digit-plus-whitespace pair, and no `"## Contents"` marker —
so on such inputs running them twice equals running them once; being merely
the output of one run does not guarantee this. -/
theorem strip_fixed_point (s : List Char)
    (h1 : ∀ n, n < s.length → matchHere re (s.drop n) = none)
    (h2 : ∀ n, n < s.length → matchHere reA (s.drop n) = none)
    (h3 : findSub ("## Contents".toList) s = none) :
    stripMarkup s = some s ∧ (stripMarkup s).bind stripMarkup = stripMarkup s := by
  have hs : stripMarkup s = some s := by
    unfold stripMarkup
    rw [replaceAll_no_match re s h1, replaceAll_no_match reA s h2]
    unfold removeContents
    rw [h3]
  refine ⟨hs, ?_⟩
  rw [hs]
  exact hs

/-- Witness for `strip_fixed_point` on the plain text `"ab"`. -/
theorem strip_fixed_point_witness :
    ((∀ n, n < ("ab".toList).length → matchHere re (("ab".toList).drop n) = none)
      ∧ (∀ n, n < ("ab".toList).length → matchHere reA (("ab".toList).drop n) = none)
      ∧ findSub ("## Contents".toList) ("ab".toList) = none)
    ∧ stripMarkup ("ab".toList) = some ("ab".toList)
    ∧ (stripMarkup ("ab".toList)).bind stripMarkup = stripMarkup ("ab".toList) :=
  ⟨⟨by decide, by decide, by decide⟩,
    (strip_fixed_point "ab".toList (by decide) (by decide) (by decide)).1,
    (strip_fixed_point "ab".toList (by decide) (by decide) (by decide)).2⟩

/-- Claim C9: the render-path lookup of the selected result is NOT
defensively checked. In the reachable state obtained by pressing `r` and
then `Enter` with no search performed, `is_selected` is set with an empty
result list, and the next render's `get_selected_search` hits the
`expect("no search results")` panic (modelled as `none`): the process
crashes, contradicting the claim. -/
theorem enter_empty_results_render_panics :
    (runEvents emptySearchFn [.Input (.Char 'r'), .Input .Enter]).is_selected = true
    ∧ (runEvents emptySearchFn
        [.Input (.Char 'r'), .Input .Enter]).current_search_results = []
    ∧ get_selected_search
        (runEvents emptySearchFn
          [.Input (.Char 'r'), .Input .Enter]).current_search_results
        (runEvents emptySearchFn [.Input (.Char 'r'), .Input .Enter]).selected = none
    ∧ renderReadingStep fetchBody
        (runEvents emptySearchFn [.Input (.Char 'r'), .Input .Enter]) 80 = none := by
  decide

/-- Claim C10: in every state whose mode is not Searching — including
Reading — the global key handler processes `q`, `h`, `r` and `s`: `q`
terminates, `h`/`r` switch the active tab, and `s` enters Searching mode
changing nothing else (the opened article — `is_selected`,
`current_content`, `scroll` — stays). -/
theorem global_keys_non_searching (f : String → List Search) (st : AppState)
    (h : st.search_mode = false) :
    update f st (.Input (.Char 'q')) = .Quit st
    ∧ update f st (.Input (.Char 'h'))
        = .Continue { st with active_menu_item := .Home }
    ∧ update f st (.Input (.Char 'r'))
        = .Continue { st with active_menu_item := .Results }
    ∧ update f st (.Input (.Char 's'))
        = .Continue { st with search_mode := true } := by
  have hdisp : ∀ c : Char, modeDispatch f st (.Char c) = st := by
    intro c
    unfold modeDispatch
    rw [if_neg (by simp [h])]
    by_cases hi : st.is_selected = true
    · rw [if_pos hi]; rfl
    · rw [if_neg hi]
      by_cases ht : st.active_menu_item.eqUsize .Results = true
      · rw [if_pos ht]; rfl
      · rw [if_neg ht]
  refine ⟨?_, ?_, ?_, ?_⟩ <;>
  · show globalHandler (modeDispatch f st (.Char _)) (.Char _) = _
    rw [hdisp]
    simp [globalHandler, h]

/-- Witness for `global_keys_non_searching` at a concrete Reading state. -/
theorem global_keys_non_searching_witness :
    update emptySearchFn readingState2 (.Input (.Char 'q')) = .Quit readingState2
    ∧ update emptySearchFn readingState2 (.Input (.Char 'h'))
        = .Continue { readingState2 with active_menu_item := .Home }
    ∧ update emptySearchFn readingState2 (.Input (.Char 'r'))
        = .Continue { readingState2 with active_menu_item := .Results }
    ∧ update emptySearchFn readingState2 (.Input (.Char 's'))
        = .Continue { readingState2 with search_mode := true } :=
  global_keys_non_searching emptySearchFn readingState2 rfl

end Tpedia
